import Mathlib

/-!
Verification development for the OKX account-balance scripts
(`okx_account_balance.py`, `okx_balance_secure.py`, `test_signature.py`).

The heart of the program is a request signer: it builds the pre-hash string
`timestamp + method.upper() + request_path + body`, computes HMAC-SHA256 of its
UTF-8 bytes keyed by the UTF-8 bytes of the secret, and base64-encodes the raw
digest.  The development embeds the signer, the header assembly, the request
path construction, and the balance formatter as executable Lean functions over
`Nat` bytes and `String`, and proves the stated properties about them.

Bytes are modelled as `Nat` values below 256 and 32-bit words as `Nat` values
reduced modulo `2 ^ 32`.  SHA-256, HMAC and base64 are implemented in full and
checked against published test vectors further down.
-/

set_option maxRecDepth 10000
set_option maxHeartbeats 1600000

/-! ## SHA-256 over byte lists -/

/-- The 32-bit word modulus. -/
def w32 : Nat := 2 ^ 32

/-- Right rotation of a 32-bit word by `n` bits. -/
def rotWordRight (n x : Nat) : Nat := ((x >>> n) ||| (x <<< (32 - n))) % w32

/-- The big Σ0 function of the SHA-256 compression. -/
def sumSigA0 (x : Nat) : Nat := rotWordRight 2 x ^^^ rotWordRight 13 x ^^^ rotWordRight 22 x

/-- The big Σ1 function of the SHA-256 compression. -/
def sumSigA1 (x : Nat) : Nat := rotWordRight 6 x ^^^ rotWordRight 11 x ^^^ rotWordRight 25 x

/-- The small σ0 function of the SHA-256 message schedule. -/
def schedSig0 (x : Nat) : Nat := rotWordRight 7 x ^^^ rotWordRight 18 x ^^^ (x >>> 3)

/-- The small σ1 function of the SHA-256 message schedule. -/
def schedSig1 (x : Nat) : Nat := rotWordRight 17 x ^^^ rotWordRight 19 x ^^^ (x >>> 10)

/-- The 64 SHA-256 round constants. -/
def sha256K : List Nat :=
  [1116352408, 1899447441, 3049323471, 3921009573, 961987163, 1508970993,
   2453635748, 2870763221, 3624381080, 310598401, 607225278, 1426881987,
   1925078388, 2162078206, 2614888103, 3248222580, 3835390401, 4022224774,
   264347078, 604807628, 770255983, 1249150122, 1555081692, 1996064986,
   2554220882, 2821834349, 2952996808, 3210313671, 3336571891, 3584528711,
   113926993, 338241895, 666307205, 773529912, 1294757372, 1396182291,
   1695183700, 1986661051, 2177026350, 2456956037, 2730485921, 2820302411,
   3259730800, 3345764771, 3516065817, 3600352804, 4094571909, 275423344,
   430227734, 506948616, 659060556, 883997877, 958139571, 1322822218,
   1537002063, 1747873779, 1955562222, 2024104815, 2227730452, 2361852424,
   2428436474, 2756734187, 3204031479, 3329325298]

/-- The initial SHA-256 hash state. -/
def sha256Init : List Nat :=
  [1779033703, 3144134277, 1013904242, 2773480762,
   1359893119, 2600822924, 528734635, 1541459225]

/-- Big-endian bytes of `n`, written `k` bytes wide. -/
def natToBytesBE (k n : Nat) : List Nat :=
  (List.range k).map (fun i => (n >>> (8 * (k - 1 - i))) % 256)

/-- Group bytes into big-endian 32-bit words, four bytes each. -/
def bytesToWords : List Nat → List Nat
  | b0 :: b1 :: b2 :: b3 :: rest =>
      ((b0 <<< 24) ||| (b1 <<< 16) ||| (b2 <<< 8) ||| b3) :: bytesToWords rest
  | _ => []

/-- SHA-256 padding: append `0x80`, zero bytes up to 56 modulo 64, then the
64-bit big-endian bit length of the message. -/
def sha256Pad (msg : List Nat) : List Nat :=
  msg ++ [0x80] ++ List.replicate ((119 - msg.length % 64) % 64) 0
      ++ natToBytesBE 8 (8 * msg.length)

/-- Split a byte list into 64-byte chunks.  The fuel argument bounds the number
of produced chunks; every chunk consumes at least one byte, so the length of the
list is always enough fuel.  (A fuel parameter keeps the recursion structural,
so the function reduces inside the kernel.) -/
def chunks64Go : Nat → List Nat → List (List Nat)
  | _, [] => []
  | 0, _ => []
  | fuel + 1, x :: xs => (x :: xs).take 64 :: chunks64Go fuel ((x :: xs).drop 64)

/-- Split a byte list into 64-byte chunks. -/
def chunks64 (l : List Nat) : List (List Nat) := chunks64Go l.length l

/-- Extend the 16 message-schedule words by `n` further words. -/
def extendSchedule (ws : List Nat) : Nat → List Nat
  | 0 => ws
  | n + 1 =>
      let prev := extendSchedule ws n
      let len := prev.length
      prev ++ [(schedSig1 (prev.getD (len - 2) 0) + prev.getD (len - 7) 0 +
                schedSig0 (prev.getD (len - 15) 0) + prev.getD (len - 16) 0) % w32]

/-- One SHA-256 round on the eight-word working state. -/
def sha256Round (st : List Nat) (kw : Nat × Nat) : List Nat :=
  match st with
  | [a, b, c, d, e, f, g, h] =>
      let ch := (e &&& f) ^^^ ((0xffffffff ^^^ e) &&& g)
      let maj := (a &&& b) ^^^ (a &&& c) ^^^ (b &&& c)
      let t1 := (h + sumSigA1 e + ch + kw.1 + kw.2) % w32
      let t2 := (sumSigA0 a + maj) % w32
      [(t1 + t2) % w32, a, b, c, (d + t1) % w32, e, f, g]
  | other => other

/-- Compress one 64-byte block into the running hash state. -/
def sha256Compress (h : List Nat) (block : List Nat) : List Nat :=
  let ws := extendSchedule (bytesToWords block) 48
  let st := (sha256K.zip ws).foldl sha256Round h
  List.zipWith (fun x y => (x + y) % w32) h st

/-- SHA-256 of a byte list, as its 32 digest bytes.  This embeds what the
Python `hashlib.sha256` collaborator computes. -/
def sha256 (msg : List Nat) : List Nat :=
  ((chunks64 (sha256Pad msg)).foldl sha256Compress sha256Init).flatMap (natToBytesBE 4)

/-- HMAC-SHA256 (RFC 2104) of a message under a key, both byte lists.  This
embeds what `hmac.new(key, msg, hashlib.sha256).digest()` computes: a key
longer than the 64-byte block is first hashed, the key is zero-padded to 64
bytes, and the digest is `H((k XOR opad) ++ H((k XOR ipad) ++ msg))`. -/
def hmacSha256 (key msg : List Nat) : List Nat :=
  let k0 := if 64 < key.length then sha256 key else key
  let k1 := k0 ++ List.replicate (64 - k0.length) 0
  let ipad := k1.map (fun b => b ^^^ 0x36)
  let opad := k1.map (fun b => b ^^^ 0x5c)
  sha256 (opad ++ sha256 (ipad ++ msg))

/-! ## UTF-8 and base64 -/

/-- UTF-8 encoding of one character, as one to four bytes. -/
def utf8Char (c : Char) : List Nat :=
  let n := c.toNat
  if n < 0x80 then [n]
  else if n < 0x800 then [0xc0 ||| (n >>> 6), 0x80 ||| (n &&& 0x3f)]
  else if n < 0x10000 then
    [0xe0 ||| (n >>> 12), 0x80 ||| ((n >>> 6) &&& 0x3f), 0x80 ||| (n &&& 0x3f)]
  else
    [0xf0 ||| (n >>> 18), 0x80 ||| ((n >>> 12) &&& 0x3f),
     0x80 ||| ((n >>> 6) &&& 0x3f), 0x80 ||| (n &&& 0x3f)]

/-- UTF-8 encoding of a string, as bytes.  This embeds the Python
`str.encode("utf-8")` steps of the signer. -/
def utf8 (s : String) : List Nat := s.data.flatMap utf8Char

/-- The base64 alphabet of RFC 4648. -/
def base64Alphabet : List Char :=
  "ABCDEFGHIJKLMNOPQRSTUVWXYZabcdefghijklmnopqrstuvwxyz0123456789+/".data

/-- The base64 alphabet character at index `i`. -/
def b64c (i : Nat) : Char := base64Alphabet.getD i '?'

/-- Base64 encoding of a byte list (RFC 4648, with `=` padding), as a character
list: three input bytes become four output characters. -/
def base64Chars : List Nat → List Char
  | [] => []
  | [b0] => [b64c (b0 >>> 2), b64c ((b0 &&& 3) <<< 4), '=', '=']
  | [b0, b1] => [b64c (b0 >>> 2), b64c (((b0 &&& 3) <<< 4) ||| (b1 >>> 4)),
                 b64c ((b1 &&& 15) <<< 2), '=']
  | b0 :: b1 :: b2 :: rest =>
      b64c (b0 >>> 2) :: b64c (((b0 &&& 3) <<< 4) ||| (b1 >>> 4)) ::
      b64c (((b1 &&& 15) <<< 2) ||| (b2 >>> 6)) :: b64c (b2 &&& 63) :: base64Chars rest

/-- Base64 encoding of a byte list as a string.  This embeds the Python
`base64.b64encode(digest).decode("utf-8")` step of the signer. -/
def b64encode (bs : List Nat) : String := String.mk (base64Chars bs)

/-- Hexadecimal rendering of a byte list, used only to state test vectors. -/
def toHex (bs : List Nat) : String :=
  String.mk (bs.flatMap (fun b => ["0123456789abcdef".data.getD (b >>> 4) '?',
                                   "0123456789abcdef".data.getD (b &&& 15) '?']))

/-! ## Python builtin models -/

/-- Models the Python `str.upper()` used by the signer, per character: the
ASCII letters `a`-`z` map to `A`-`Z` and every other character is unchanged.
This is the Lean core `Char.toUpper` mapping.  (Full Unicode case mapping is
not modelled; every string the program signs is ASCII.) -/
def pyUpper (s : String) : String := String.mk (s.data.map Char.toUpper)

/-- Value of a digit list read in base 10. -/
def digitsToNat (ds : List Char) : Nat := ds.foldl (fun acc c => acc * 10 + (c.toNat - 48)) 0

/-- Models the Python `float(...)` conversion applied by the balance formatter
to balance strings, restricted to plain decimal literals: an optional sign,
digits, an optional decimal point and fraction digits, with at least one digit
overall.  The value is returned exactly, as a rational; `none` models the
`ValueError` the conversion raises on any other string.  (Exponents, `inf`,
`nan`, underscores and surrounding whitespace are outside the model; the
balance fields of the API responses are plain decimal literals.) -/
def pyFloat (s : String) : Option ℚ :=
  let signed : Int × List Char :=
    match s.data with
    | '-' :: r => (-1, r)
    | '+' :: r => (1, r)
    | r => (1, r)
  let intPart := signed.2.takeWhile (fun c => c != '.')
  let rest := signed.2.dropWhile (fun c => c != '.')
  match rest with
  | [] =>
      if intPart ≠ [] ∧ intPart.all Char.isDigit then
        some (mkRat (signed.1 * digitsToNat intPart) 1)
      else none
  | _ :: frac =>
      if (intPart ++ frac) ≠ [] ∧ intPart.all Char.isDigit ∧ frac.all Char.isDigit then
        some (mkRat (signed.1 * (digitsToNat intPart * 10 ^ frac.length + digitsToNat frac))
          (10 ^ frac.length))
      else none

/-! ## Data model of the consumed API responses

`format_balance_response` consumes a parsed JSON mapping with the shape
`{code, msg, data: [{details: [{ccy, cashBal, availBal, frozenBal}]}]}`, into
which the HTTP layer may instead have injected an `error` key.  Optional fields
model `dict.get` lookups; a missing `details` or `data` key behaves as the
empty list, matching the `get(..., [])` defaults in the source. -/

/-- One per-currency balance entry of a response. -/
structure BalanceDetail where
  ccy : Option String
  cashBal : Option String
  availBal : Option String
  frozenBal : Option String
deriving DecidableEq

/-- One account entry of a response, holding its balance details. -/
structure BalanceAccount where
  details : List BalanceDetail
deriving DecidableEq

/-- A parsed response as the formatter sees it: an `error` marker injected by
the HTTP layer, or the remote `code`/`msg`/`data` fields. -/
structure APIResponse where
  error : Option String
  code : Option String
  msg : Option String
  data : List BalanceAccount
deriving DecidableEq

/-- Outcome of formatting one account: the `details` list was empty, every
balance was filtered out as non-positive, or the given entries are shown in
the given order. -/
inductive AccountOut where
  | noDetails : AccountOut
  | allZero : AccountOut
  | shown (ds : List BalanceDetail) : AccountOut
deriving DecidableEq

/-- Abstract outcome of `format_balance_response`: the transport-error branch,
the application-error branch (carrying the branching `code` and the surfaced
message), the empty-data branch, or the per-account balance rendering.  The
plain script prints only the message of the application-error branch while the
secure script also prints the code; the constructor records both branch data. -/
inductive FormatOut where
  | transportError (msg : String) : FormatOut
  | apiError (code : Option String) (msg : String) : FormatOut
  | emptyData : FormatOut
  | balances (accounts : List AccountOut) : FormatOut
deriving DecidableEq

/-- The `float(d.get("cashBal", "0"))` conversion of one entry: `none` models
the exception on an unparseable balance string. -/
def detailBal (d : BalanceDetail) : Option ℚ := pyFloat (d.cashBal.getD "0")

/-- The numeric sort and filter key of one entry, defined where the conversion
succeeds (the formatter only evaluates it under that guard). -/
def balKey (d : BalanceDetail) : ℚ := (detailBal d).getD 0

/-- The entries of one shown account. -/
def shownDetails : AccountOut → List BalanceDetail
  | AccountOut.shown ds => ds
  | _ => []

/-- Every balance entry a formatter outcome displays, in display order. -/
def renderedDetails : FormatOut → List BalanceDetail
  | FormatOut.balances outs => outs.flatMap shownDetails
  | _ => []

/-- Every balance entry displayed by a possibly-failing formatter run. -/
def renderedOf : Option FormatOut → List BalanceDetail
  | some out => renderedDetails out
  | none => []

/-- The pre-hash string of the OKX signing scheme, exactly as all three
signer copies build it: `timestamp + method.upper() + request_path + body`,
with no delimiters. -/
def preHashString (timestamp method request_path body : String) : String :=
  timestamp ++ pyUpper method ++ request_path ++ body

namespace OkxAccountBalance

/-- Embeds `OKXAPIClient._generate_signature` of `okx_account_balance.py`.
The `secret_key` parameter stands for the `self.secret_key` field; the
remaining parameters follow the Python signature. -/
def generate_signature (secret_key timestamp method request_path body : String) : String :=
  let prehash := timestamp ++ pyUpper method ++ request_path ++ body
  b64encode (hmacSha256 (utf8 secret_key) (utf8 prehash))

/-- Embeds `OKXAPIClient._get_headers` of `okx_account_balance.py`: the
returned dict, as its key-value pairs in insertion order.  `api_key`,
`secret_key` and `passphrase` stand for the client fields. -/
def get_headers (api_key secret_key passphrase timestamp method request_path body : String) :
    List (String × String) :=
  [("OK-ACCESS-KEY", api_key),
   ("OK-ACCESS-SIGN", generate_signature secret_key timestamp method request_path body),
   ("OK-ACCESS-TIMESTAMP", timestamp),
   ("OK-ACCESS-PASSPHRASE", passphrase),
   ("Content-Type", "application/json")]

/-- Embeds the request-path construction of
`OKXAPIClient.get_account_balance` of `okx_account_balance.py`: the base path,
with `?ccy=<code>` appended when `ccy` is truthy.  `none` models passing no
currency; `some ""` and `none` are both falsy in the Python `if ccy:` test. -/
def balance_request_path (ccy : Option String) : String :=
  let request_path := "/api/v5/account/balance"
  match ccy with
  | none => request_path
  | some c => if c = "" then request_path else request_path ++ "?ccy=" ++ c

/-- Embeds the per-account body of `format_balance_response` of
`okx_account_balance.py`: an empty `details` list prints a placeholder, any
other list is printed entry by entry, unfiltered and unsorted. -/
def format_account (a : BalanceAccount) : AccountOut :=
  if a.details.isEmpty then AccountOut.noDetails else AccountOut.shown a.details

/-- Embeds `OKXAPIClient.format_balance_response` of `okx_account_balance.py`
as the abstract outcome it prints: the `error` branch, the `code != "0"`
branch surfacing `msg` (default `未知错误`), the empty-`data` branch, or the
per-account rendering. -/
def format_balance_response (r : APIResponse) : FormatOut :=
  match r.error with
  | some e => FormatOut.transportError e
  | none =>
      if r.code ≠ some "0" then FormatOut.apiError r.code (r.msg.getD "未知错误")
      else
        match r.data with
        | [] => FormatOut.emptyData
        | a :: rest => FormatOut.balances ((a :: rest).map format_account)

end OkxAccountBalance

namespace OkxBalanceSecure

/-- Embeds `OKXAPIClient._generate_signature` of `okx_balance_secure.py`,
textually identical to the plain variant. -/
def generate_signature (secret_key timestamp method request_path body : String) : String :=
  let prehash := timestamp ++ pyUpper method ++ request_path ++ body
  b64encode (hmacSha256 (utf8 secret_key) (utf8 prehash))

/-- Embeds `OKXAPIClient._get_headers` of `okx_balance_secure.py`, textually
identical to the plain variant. -/
def get_headers (api_key secret_key passphrase timestamp method request_path body : String) :
    List (String × String) :=
  [("OK-ACCESS-KEY", api_key),
   ("OK-ACCESS-SIGN", generate_signature secret_key timestamp method request_path body),
   ("OK-ACCESS-TIMESTAMP", timestamp),
   ("OK-ACCESS-PASSPHRASE", passphrase),
   ("Content-Type", "application/json")]

/-- Embeds the request-path construction of
`OKXAPIClient.get_account_balance` of `okx_balance_secure.py`, textually
identical to the plain variant. -/
def balance_request_path (ccy : Option String) : String :=
  let request_path := "/api/v5/account/balance"
  match ccy with
  | none => request_path
  | some c => if c = "" then request_path else request_path ++ "?ccy=" ++ c

/-- The `non_zero_details` list comprehension of `format_balance_response` of
`okx_balance_secure.py`: the entries whose converted `cashBal` is strictly
positive.  (Despite the source name, zero and negative balances are both
dropped by the `> 0` test.) -/
def non_zero_details (details : List BalanceDetail) : List BalanceDetail :=
  details.filter (fun d => decide (0 < balKey d))

/-- The `sorted_details` value of `format_balance_response` of
`okx_balance_secure.py`: the positive entries, stably sorted by descending
converted `cashBal`.  Python `sorted(..., key=..., reverse=True)` is the
unique stable sort for this preorder, here realised by insertion sort. -/
def sorted_details (details : List BalanceDetail) : List BalanceDetail :=
  List.insertionSort (fun d1 d2 => balKey d2 ≤ balKey d1) (non_zero_details details)

/-- Embeds the per-account body of `format_balance_response` of
`okx_balance_secure.py`.  An empty `details` list prints a placeholder.
Otherwise the comprehension calls `float` on every entry; `none` models the
exception when any balance string fails to convert.  With all conversions
defined, an empty sorted list prints the all-zero placeholder and a non-empty
one is shown in sorted order. -/
def format_account (a : BalanceAccount) : Option AccountOut :=
  if a.details.isEmpty then some AccountOut.noDetails
  else if a.details.all (fun d => (detailBal d).isSome) then
    some (if (sorted_details a.details).isEmpty then AccountOut.allZero
          else AccountOut.shown (sorted_details a.details))
  else none

/-- The account loop of `format_balance_response` of `okx_balance_secure.py`,
with the exception of any account aborting the whole run. -/
def format_accounts : List BalanceAccount → Option (List AccountOut)
  | [] => some []
  | a :: rest =>
      match format_account a, format_accounts rest with
      | some o, some os => some (o :: os)
      | _, _ => none

/-- Embeds `OKXAPIClient.format_balance_response` of `okx_balance_secure.py`
as the abstract outcome it prints. -/
def format_balance_response (r : APIResponse) : Option FormatOut :=
  match r.error with
  | some e => some (FormatOut.transportError e)
  | none =>
      if r.code ≠ some "0" then some (FormatOut.apiError r.code (r.msg.getD "未知错误"))
      else
        match r.data with
        | [] => some FormatOut.emptyData
        | a :: rest => (format_accounts (a :: rest)).map FormatOut.balances

end OkxBalanceSecure

namespace TestSignature

/-- Embeds the standalone `generate_signature` of `test_signature.py`; the
parameter order is that of the Python function.  (The function also prints the
pre-hash string and the signature; the value it returns is modelled.) -/
def generate_signature (timestamp method request_path body secret_key : String) : String :=
  let prehash := timestamp ++ pyUpper method ++ request_path ++ body
  b64encode (hmacSha256 (utf8 secret_key) (utf8 prehash))

end TestSignature


/-! ## Concrete data for counterexamples and witnesses -/

/-- A positive-balance entry. -/
def cexDetailPos : BalanceDetail := ⟨some "ETH", some "5", some "5", some "0"⟩

/-- A negative-balance (hence non-zero) entry. -/
def cexDetailNeg : BalanceDetail := ⟨some "USDT", some "-1", some "0", some "0"⟩

/-- A zero-balance entry. -/
def cexDetailZero : BalanceDetail := ⟨some "BTC", some "0", some "0", some "0"⟩

/-- A successful response holding one account with a positive, a negative and a
zero balance entry. -/
def cexResponse : APIResponse :=
  ⟨none, some "0", none, [⟨[cexDetailPos, cexDetailNeg, cexDetailZero]⟩]⟩

/-- A positive-balance entry with a fractional balance string. -/
def sampleDetailPos : BalanceDetail := ⟨some "BTC", some "1.5", some "1.0", some "0.5"⟩

/-- A zero-balance entry. -/
def sampleDetailZero : BalanceDetail := ⟨some "ETH", some "0", some "0", some "0"⟩

/-- An account holding one zero and one positive entry. -/
def sampleAccount : BalanceAccount := ⟨[sampleDetailZero, sampleDetailPos]⟩

/-- A successful response holding `sampleAccount`. -/
def sampleResponse : APIResponse := ⟨none, some "0", none, [sampleAccount]⟩

/-- An application-error response: `code` is `"1"` and `msg` is `Invalid
Sign`. -/
def errorResponse : APIResponse := ⟨none, some "1", some "Invalid Sign", []⟩

/-- The descending-balance preorder on entries is total. -/
instance : IsTotal BalanceDetail (fun d₁ d₂ => balKey d₂ ≤ balKey d₁) :=
  ⟨fun a b => le_total (balKey b) (balKey a)⟩

/-- The descending-balance preorder on entries is transitive. -/
instance : IsTrans BalanceDetail (fun d₁ d₂ => balKey d₂ ≤ balKey d₁) :=
  ⟨fun _ _ _ hab hbc => le_trans hbc hab⟩

/-! ## Helper lemmas -/

/-- ASCII uppercasing is idempotent per character: an uppercased character is
never in the lowercase range again. -/
theorem toUpper_idem (c : Char) : c.toUpper.toUpper = c.toUpper := by
  by_cases h : c.toNat ≥ 97 ∧ c.toNat ≤ 122
  · have hc : c.toUpper = Char.ofNat (c.toNat - 32) := by
      show (if c.toNat ≥ 97 ∧ c.toNat ≤ 122 then Char.ofNat (c.toNat - 32) else c) = _
      rw [if_pos h]
    rw [hc]
    obtain ⟨h1, h2⟩ := h
    set n := c.toNat
    interval_cases n <;> decide
  · have hc : c.toUpper = c := by
      show (if c.toNat ≥ 97 ∧ c.toNat ≤ 122 then Char.ofNat (c.toNat - 32) else c) = _
      rw [if_neg h]
    rw [hc]
    exact hc

/-- The modelled `str.upper()` is idempotent. -/
theorem pyUpper_idem (s : String) : pyUpper (pyUpper s) = pyUpper s := by
  unfold pyUpper
  congr 1
  show (s.data.map Char.toUpper).map Char.toUpper = s.data.map Char.toUpper
  rw [List.map_map]
  exact List.map_congr_left (fun c _ => toUpper_idem c)

/-- Two pre-hash strings that agree in method, path and body force equal
timestamps: the timestamp can be cancelled on the right. -/
theorem preHash_cancel_ts {t₁ t₂ m p b : String}
    (h : preHashString t₁ m p b = preHashString t₂ m p b) : t₁ = t₂ := by
  have hd := congrArg String.data h
  simp only [preHashString, String.data_append] at hd
  exact String.ext
    (List.append_cancel_right (List.append_cancel_right (List.append_cancel_right hd)))

/-- Two pre-hash strings that agree in timestamp, method and body force equal
paths. -/
theorem preHash_cancel_path {t m p₁ p₂ b : String}
    (h : preHashString t m p₁ b = preHashString t m p₂ b) : p₁ = p₂ := by
  have hd := congrArg String.data h
  simp only [preHashString, String.data_append] at hd
  exact String.ext (List.append_cancel_left (List.append_cancel_right hd))

/-- Two pre-hash strings that agree in timestamp, method and path force equal
bodies. -/
theorem preHash_cancel_body {t m p b₁ b₂ : String}
    (h : preHashString t m p b₁ = preHashString t m p b₂) : b₁ = b₂ := by
  have hd := congrArg String.data h
  simp only [preHashString, String.data_append] at hd
  exact String.ext (List.append_cancel_left hd)

/-- The sorted entry list is a permutation of the strictly positive entries. -/
theorem sorted_details_perm_filter (ds : List BalanceDetail) :
    (OkxBalanceSecure.sorted_details ds).Perm
      (ds.filter (fun d => decide (0 < balKey d))) :=
  List.perm_insertionSort _ _

/-- The sorted entry list is in descending balance order. -/
theorem sorted_details_pairwise (ds : List BalanceDetail) :
    (OkxBalanceSecure.sorted_details ds).Pairwise (fun d₁ d₂ => balKey d₂ ≤ balKey d₁) :=
  List.sorted_insertionSort _ _

/-- Every member of the sorted entry list has strictly positive balance. -/
theorem mem_sorted_details_pos {ds : List BalanceDetail} {d : BalanceDetail}
    (h : d ∈ OkxBalanceSecure.sorted_details ds) : 0 < balKey d := by
  have hm := (sorted_details_perm_filter ds).mem_iff.mp h
  exact of_decide_eq_true (List.mem_filter.mp hm).2

/-- An account with no entries formats to the placeholder outcome. -/
theorem format_account_of_empty (a : BalanceAccount) (h : a.details = []) :
    OkxBalanceSecure.format_account a = some AccountOut.noDetails := by
  simp [OkxBalanceSecure.format_account, h]

/-- An account whose balance strings all convert formats to the all-zero
placeholder or to its sorted positive entries. -/
theorem format_account_of_parse (a : BalanceAccount) (h : a.details ≠ [])
    (hp : ∀ d ∈ a.details, (detailBal d).isSome) :
    OkxBalanceSecure.format_account a =
      some (if (OkxBalanceSecure.sorted_details a.details).isEmpty then AccountOut.allZero
            else AccountOut.shown (OkxBalanceSecure.sorted_details a.details)) := by
  have h1 : a.details.isEmpty = false := by
    cases hds : a.details with
    | nil => exact absurd hds h
    | cons x xs => rfl
  have h2 : a.details.all (fun d => (detailBal d).isSome) = true := List.all_eq_true.mpr hp
  simp [OkxBalanceSecure.format_account, h1, h2]

/-! ## Test vectors

These ground the primitive embeddings: they are the published SHA-256 and
HMAC-SHA256 test vectors (FIPS 180 examples and RFC 4231 test case 1) and an
RFC 4648 base64 example, evaluated inside the kernel. -/

/-- SHA-256 of the empty message matches the published digest. -/
theorem sha256_empty_vector :
    toHex (sha256 []) =
      "e3b0c44298fc1c149afbf4c8996fb92427ae41e4649b934ca495991b7852b855" := by decide

/-- SHA-256 of `"abc"` matches the published digest. -/
theorem sha256_abc_vector :
    toHex (sha256 (utf8 "abc")) =
      "ba7816bf8f01cfea414140de5dae2223b00361a396177a9cb410ff61f20015ad" := by decide

/-- HMAC-SHA256 matches RFC 4231 test case 1. -/
theorem hmac_rfc4231_vector :
    toHex (hmacSha256 (List.replicate 20 0x0b) (utf8 "Hi There")) =
      "b0344c61d8db38535ca8afceaf0bf12b881dc200c9833da726e9376c2e32cff7" := by decide

/-- Base64 matches the RFC 4648 examples, padding included. -/
theorem base64_vector :
    b64encode (utf8 "Man") = "TWFu" ∧ b64encode (utf8 "Ma") = "TWE=" := by decide


/-! ## The claims -/

/-- Claim C1: for every secret, timestamp, method, path and body, the signer
returns the base64 encoding of the raw HMAC-SHA256 digest, keyed by the UTF-8
bytes of the secret, of the UTF-8 bytes of the delimiter-free concatenation
`timestamp ++ uppercased method ++ path ++ body`.  Stated for both cited
copies of the signer. -/
theorem C1_signature_base64_hmac (secret timestamp method request_path body : String) :
    OkxAccountBalance.generate_signature secret timestamp method request_path body =
      b64encode (hmacSha256 (utf8 secret)
        (utf8 (timestamp ++ pyUpper method ++ request_path ++ body))) ∧
    TestSignature.generate_signature timestamp method request_path body secret =
      b64encode (hmacSha256 (utf8 secret)
        (utf8 (timestamp ++ pyUpper method ++ request_path ++ body))) :=
  ⟨rfl, rfl⟩

/-- Claim C2: the signature is a pure, deterministic function of the five
inputs: two calls with equal secrets, timestamps, methods, paths and bodies
return the same base64 string.  The embedding itself is a pure function, so no
state can be carried between calls. -/
theorem C2_signature_deterministic
    (s₁ t₁ m₁ p₁ b₁ s₂ t₂ m₂ p₂ b₂ : String)
    (hs : s₁ = s₂) (ht : t₁ = t₂) (hm : m₁ = m₂) (hp : p₁ = p₂) (hb : b₁ = b₂) :
    OkxBalanceSecure.generate_signature s₁ t₁ m₁ p₁ b₁ =
      OkxBalanceSecure.generate_signature s₂ t₂ m₂ p₂ b₂ := by
  subst hs; subst ht; subst hm; subst hp; subst hb; rfl

/-- Witness for C2 at the worked example of the repository. -/
theorem C2_witness :
    OkxBalanceSecure.generate_signature "22582BD0CFF14C41EDBF1AB98506286D"
        "2020-12-08T09:08:57.715Z" "GET" "/api/v5/account/balance" "" =
      OkxBalanceSecure.generate_signature "22582BD0CFF14C41EDBF1AB98506286D"
        "2020-12-08T09:08:57.715Z" "GET" "/api/v5/account/balance" "" :=
  C2_signature_deterministic "22582BD0CFF14C41EDBF1AB98506286D" "2020-12-08T09:08:57.715Z"
    "GET" "/api/v5/account/balance" "" "22582BD0CFF14C41EDBF1AB98506286D"
    "2020-12-08T09:08:57.715Z" "GET" "/api/v5/account/balance" "" rfl rfl rfl rfl rfl

/-- Counterexample to claim C3 as stated: the methods `GET` and `gET` differ
in exactly one byte (a case change), yet the signer returns the same signature
for both, because the method is uppercased before concatenation. -/
theorem C3_counterexample_method_case :
    ("GET" : String) ≠ "gET" ∧
    "GET".data.length = "gET".data.length ∧
    (List.zip "GET".data "gET".data).countP (fun q => q.1 != q.2) = 1 ∧
    OkxAccountBalance.generate_signature "22582BD0CFF14C41EDBF1AB98506286D"
        "2020-12-08T09:08:57.715Z" "GET" "/api/v5/account/balance" "" =
      OkxAccountBalance.generate_signature "22582BD0CFF14C41EDBF1AB98506286D"
        "2020-12-08T09:08:57.715Z" "gET" "/api/v5/account/balance" "" := by
  have hup : pyUpper "gET" = pyUpper "GET" := by decide
  exact ⟨by decide, rfl, by decide, by
    simp only [OkxAccountBalance.generate_signature, hup]⟩

/-- Claim C3, amended: changing the timestamp, the path, or the body (in
particular in a single byte) always changes the pre-hash string the signer
hashes; at the worked example, a single-byte change of the timestamp, of the
path, or of the body each changes the signature.  (A single-byte case change
of the method does not change the signature, since the method is uppercased
before concatenation; see the counterexample.) -/
theorem C3_avalanche_amended :
    (∀ t₁ t₂ m p b : String, t₁ ≠ t₂ →
      preHashString t₁ m p b ≠ preHashString t₂ m p b) ∧
    (∀ t m p₁ p₂ b : String, p₁ ≠ p₂ →
      preHashString t m p₁ b ≠ preHashString t m p₂ b) ∧
    (∀ t m p b₁ b₂ : String, b₁ ≠ b₂ →
      preHashString t m p b₁ ≠ preHashString t m p b₂) ∧
    OkxAccountBalance.generate_signature "22582BD0CFF14C41EDBF1AB98506286D"
        "2020-12-08T09:08:57.715Z" "GET" "/api/v5/account/balance" "" ≠
      OkxAccountBalance.generate_signature "22582BD0CFF14C41EDBF1AB98506286D"
        "2020-12-08T09:08:57.716Z" "GET" "/api/v5/account/balance" "" ∧
    OkxAccountBalance.generate_signature "22582BD0CFF14C41EDBF1AB98506286D"
        "2020-12-08T09:08:57.715Z" "GET" "/api/v5/account/balance" "" ≠
      OkxAccountBalance.generate_signature "22582BD0CFF14C41EDBF1AB98506286D"
        "2020-12-08T09:08:57.715Z" "GET" "/api/v5/account/balancf" "" ∧
    OkxAccountBalance.generate_signature "22582BD0CFF14C41EDBF1AB98506286D"
        "2020-12-08T09:08:57.715Z" "GET" "/api/v5/account/balance" "a" ≠
      OkxAccountBalance.generate_signature "22582BD0CFF14C41EDBF1AB98506286D"
        "2020-12-08T09:08:57.715Z" "GET" "/api/v5/account/balance" "b" :=
  ⟨fun _ _ _ _ _ hne h => hne (preHash_cancel_ts h),
   fun _ _ _ _ _ hne h => hne (preHash_cancel_path h),
   fun _ _ _ _ _ hne h => hne (preHash_cancel_body h),
   by decide, by decide, by decide⟩

/-- Witness for the amended C3: the pre-hash difference applied at two
concrete timestamps differing in one byte. -/
theorem C3_witness :
    preHashString "2020-12-08T09:08:57.715Z" "GET" "/api/v5/account/balance" "" ≠
      preHashString "2020-12-08T09:08:57.716Z" "GET" "/api/v5/account/balance" "" :=
  C3_avalanche_amended.1 "2020-12-08T09:08:57.715Z" "2020-12-08T09:08:57.716Z"
    "GET" "/api/v5/account/balance" "" (by decide)

/-- Claim C4: the signer returns the same signature for a method and for its
uppercased form, for both cited signer copies: a lowercase method is
normalized, never rejected. -/
theorem C4_method_uppercase_normalized
    (secret timestamp method request_path body : String) :
    OkxAccountBalance.generate_signature secret timestamp method request_path body =
      OkxAccountBalance.generate_signature secret timestamp (pyUpper method)
        request_path body ∧
    OkxBalanceSecure.generate_signature secret timestamp method request_path body =
      OkxBalanceSecure.generate_signature secret timestamp (pyUpper method)
        request_path body := by
  refine ⟨?_, ?_⟩ <;>
    simp only [OkxAccountBalance.generate_signature, OkxBalanceSecure.generate_signature,
      pyUpper_idem]

/-- Claim C5: with the fixed example secret, method `GET` and empty body, the
query path `?ccy=BTC` signs differently from the bare path: for every
timestamp the two pre-hash strings differ, and at the worked-example timestamp
the two signatures differ. -/
theorem C5_query_path_changes_signature :
    (∀ timestamp : String,
      preHashString timestamp "GET" (OkxAccountBalance.balance_request_path (some "BTC")) "" ≠
        preHashString timestamp "GET" (OkxAccountBalance.balance_request_path none) "") ∧
    TestSignature.generate_signature "2020-12-08T09:08:57.715Z" "GET"
        "/api/v5/account/balance?ccy=BTC" "" "22582BD0CFF14C41EDBF1AB98506286D" ≠
      TestSignature.generate_signature "2020-12-08T09:08:57.715Z" "GET"
        "/api/v5/account/balance" "" "22582BD0CFF14C41EDBF1AB98506286D" := by
  refine ⟨fun ts h => absurd (preHash_cancel_path h) (by decide), by decide⟩

/-- Witness for C5: the pre-hash difference at the worked-example
timestamp. -/
theorem C5_witness :
    preHashString "2020-12-08T09:08:57.715Z" "GET"
        (OkxAccountBalance.balance_request_path (some "BTC")) "" ≠
      preHashString "2020-12-08T09:08:57.715Z" "GET"
        (OkxAccountBalance.balance_request_path none) "" :=
  C5_query_path_changes_signature.1 "2020-12-08T09:08:57.715Z"

/-- Counterexample to claim C6 as stated: `cexResponse` has code `"0"` and
details with both zero and non-zero total balances, yet the formatter does not
display all remaining non-zero entries — the negative (non-zero) entry is
omitted as well, because the source filters with `> 0`. -/
theorem C6_counterexample_negative_balance :
    cexResponse.error = none ∧ cexResponse.code = some "0" ∧
    cexDetailZero ∈ [cexDetailPos, cexDetailNeg, cexDetailZero] ∧
    balKey cexDetailZero = 0 ∧
    cexDetailNeg ∈ [cexDetailPos, cexDetailNeg, cexDetailZero] ∧
    balKey cexDetailNeg ≠ 0 ∧
    cexDetailNeg ∉ renderedOf (OkxBalanceSecure.format_balance_response cexResponse) ∧
    renderedOf (OkxBalanceSecure.format_balance_response cexResponse) = [cexDetailPos] := by
  decide

/-- Claim C6, amended: for every error-free response with code `"0"` and one
account whose balance strings all convert, the formatter displays exactly the
entries with strictly positive total balance — zero and negative entries are
omitted — sorted in descending order of total balance. -/
theorem C6_positive_filter_sorted (r : APIResponse) (acct : BalanceAccount)
    (herr : r.error = none) (hcode : r.code = some "0") (hdata : r.data = [acct])
    (hparse : ∀ d ∈ acct.details, (detailBal d).isSome) :
    ∃ out : FormatOut,
      OkxBalanceSecure.format_balance_response r = some out ∧
      (renderedDetails out).Perm (acct.details.filter (fun d => decide (0 < balKey d))) ∧
      (renderedDetails out).Pairwise (fun d₁ d₂ => balKey d₂ ≤ balKey d₁) ∧
      (∀ d ∈ renderedDetails out, 0 < balKey d) := by
  by_cases hemp : acct.details = []
  · refine ⟨FormatOut.balances [AccountOut.noDetails], ?_, ?_, ?_, ?_⟩
    · simp [OkxBalanceSecure.format_balance_response, herr, hcode, hdata,
        OkxBalanceSecure.format_accounts, format_account_of_empty acct hemp]
    · simp [renderedDetails, shownDetails, hemp]
    · simp [renderedDetails, shownDetails]
    · simp [renderedDetails, shownDetails]
  · by_cases hz : OkxBalanceSecure.sorted_details acct.details = []
    · have hfe : acct.details.filter (fun d => decide (0 < balKey d)) = [] := by
        have hperm := sorted_details_perm_filter acct.details
        rw [hz] at hperm
        exact (hperm.nil_eq).symm
      refine ⟨FormatOut.balances [AccountOut.allZero], ?_, ?_, ?_, ?_⟩
      · simp [OkxBalanceSecure.format_balance_response, herr, hcode, hdata,
          OkxBalanceSecure.format_accounts, format_account_of_parse acct hemp hparse, hz]
      · simp [renderedDetails, shownDetails, hfe]
      · simp [renderedDetails, shownDetails]
      · simp [renderedDetails, shownDetails]
    · refine ⟨FormatOut.balances
          [AccountOut.shown (OkxBalanceSecure.sorted_details acct.details)], ?_, ?_, ?_, ?_⟩
      · simp [OkxBalanceSecure.format_balance_response, herr, hcode, hdata,
          OkxBalanceSecure.format_accounts, format_account_of_parse acct hemp hparse, hz]
      · simpa [renderedDetails, shownDetails] using sorted_details_perm_filter acct.details
      · simpa [renderedDetails, shownDetails] using sorted_details_pairwise acct.details
      · intro d hd
        simp only [renderedDetails, shownDetails, List.flatMap_cons, List.flatMap_nil,
          List.append_nil] at hd
        exact mem_sorted_details_pos hd

/-- Witness for the amended C6 on `sampleResponse`. -/
theorem C6_witness :
    ∃ out : FormatOut,
      OkxBalanceSecure.format_balance_response sampleResponse = some out ∧
      (renderedDetails out).Perm
        (sampleAccount.details.filter (fun d => decide (0 < balKey d))) ∧
      (renderedDetails out).Pairwise (fun d₁ d₂ => balKey d₂ ≤ balKey d₁) ∧
      (∀ d ∈ renderedDetails out, 0 < balKey d) :=
  C6_positive_filter_sorted sampleResponse sampleAccount rfl rfl rfl (by decide)

/-- Claim C7: for every response without an error marker whose code is not
`"0"`, both formatters surface the `msg` field as the application-error
message and render no balance entries. -/
theorem C7_api_error_surfaces_msg (r : APIResponse) (m : String)
    (herr : r.error = none) (hcode : r.code ≠ some "0") (hmsg : r.msg = some m) :
    (OkxBalanceSecure.format_balance_response r =
        some (FormatOut.apiError r.code m) ∧
      renderedOf (OkxBalanceSecure.format_balance_response r) = []) ∧
    (OkxAccountBalance.format_balance_response r = FormatOut.apiError r.code m ∧
      renderedDetails (OkxAccountBalance.format_balance_response r) = []) := by
  have hsec : OkxBalanceSecure.format_balance_response r =
      some (FormatOut.apiError r.code m) := by
    simp [OkxBalanceSecure.format_balance_response, herr, hmsg, hcode]
  have hplain : OkxAccountBalance.format_balance_response r =
      FormatOut.apiError r.code m := by
    simp [OkxAccountBalance.format_balance_response, herr, hmsg, hcode]
  exact ⟨⟨hsec, by rw [hsec]; rfl⟩, ⟨hplain, by rw [hplain]; rfl⟩⟩

/-- Witness for C7 on the `Invalid Sign` response of the spec. -/
theorem C7_witness :
    (OkxBalanceSecure.format_balance_response errorResponse =
        some (FormatOut.apiError errorResponse.code "Invalid Sign") ∧
      renderedOf (OkxBalanceSecure.format_balance_response errorResponse) = []) ∧
    (OkxAccountBalance.format_balance_response errorResponse =
        FormatOut.apiError errorResponse.code "Invalid Sign" ∧
      renderedDetails (OkxAccountBalance.format_balance_response errorResponse) = []) :=
  C7_api_error_surfaces_msg errorResponse "Invalid Sign" rfl (by decide) rfl

/-- Claim C8: header assembly returns exactly the five fields
`OK-ACCESS-KEY`, `OK-ACCESS-SIGN`, `OK-ACCESS-TIMESTAMP`,
`OK-ACCESS-PASSPHRASE` and `Content-Type`, bound to the api key, the computed
signature, the timestamp, the passphrase and `application/json`, in both
cited copies.  The embedding is a pure function returning the mapping, so no
state or side effect is possible. -/
theorem C8_headers_exact_five
    (api_key secret_key passphrase timestamp method request_path body : String) :
    ((OkxAccountBalance.get_headers api_key secret_key passphrase timestamp method
        request_path body).map Prod.fst =
      ["OK-ACCESS-KEY", "OK-ACCESS-SIGN", "OK-ACCESS-TIMESTAMP",
       "OK-ACCESS-PASSPHRASE", "Content-Type"] ∧
     (OkxAccountBalance.get_headers api_key secret_key passphrase timestamp method
        request_path body).length = 5 ∧
     (OkxAccountBalance.get_headers api_key secret_key passphrase timestamp method
        request_path body).lookup "OK-ACCESS-KEY" = some api_key ∧
     (OkxAccountBalance.get_headers api_key secret_key passphrase timestamp method
        request_path body).lookup "OK-ACCESS-SIGN" =
       some (OkxAccountBalance.generate_signature secret_key timestamp method
         request_path body) ∧
     (OkxAccountBalance.get_headers api_key secret_key passphrase timestamp method
        request_path body).lookup "OK-ACCESS-TIMESTAMP" = some timestamp ∧
     (OkxAccountBalance.get_headers api_key secret_key passphrase timestamp method
        request_path body).lookup "OK-ACCESS-PASSPHRASE" = some passphrase ∧
     (OkxAccountBalance.get_headers api_key secret_key passphrase timestamp method
        request_path body).lookup "Content-Type" = some "application/json") ∧
    ((OkxBalanceSecure.get_headers api_key secret_key passphrase timestamp method
        request_path body).map Prod.fst =
      ["OK-ACCESS-KEY", "OK-ACCESS-SIGN", "OK-ACCESS-TIMESTAMP",
       "OK-ACCESS-PASSPHRASE", "Content-Type"] ∧
     (OkxBalanceSecure.get_headers api_key secret_key passphrase timestamp method
        request_path body).length = 5 ∧
     (OkxBalanceSecure.get_headers api_key secret_key passphrase timestamp method
        request_path body).lookup "OK-ACCESS-KEY" = some api_key ∧
     (OkxBalanceSecure.get_headers api_key secret_key passphrase timestamp method
        request_path body).lookup "OK-ACCESS-SIGN" =
       some (OkxBalanceSecure.generate_signature secret_key timestamp method
         request_path body) ∧
     (OkxBalanceSecure.get_headers api_key secret_key passphrase timestamp method
        request_path body).lookup "OK-ACCESS-TIMESTAMP" = some timestamp ∧
     (OkxBalanceSecure.get_headers api_key secret_key passphrase timestamp method
        request_path body).lookup "OK-ACCESS-PASSPHRASE" = some passphrase ∧
     (OkxBalanceSecure.get_headers api_key secret_key passphrase timestamp method
        request_path body).lookup "Content-Type" = some "application/json") :=
  ⟨⟨rfl, rfl, rfl, rfl, rfl, rfl, rfl⟩, ⟨rfl, rfl, rfl, rfl, rfl, rfl, rfl⟩⟩

/-- Claim C9: the signed and requested path is the bare balance path when the
currency is absent or empty, and the balance path with `?ccy=` and the
currency appended when it is a non-empty string, in both cited copies. -/
theorem C9_request_path_ccy :
    OkxAccountBalance.balance_request_path none = "/api/v5/account/balance" ∧
    OkxAccountBalance.balance_request_path (some "") = "/api/v5/account/balance" ∧
    (∀ c : String, c ≠ "" →
      OkxAccountBalance.balance_request_path (some c) =
        "/api/v5/account/balance" ++ "?ccy=" ++ c) ∧
    OkxBalanceSecure.balance_request_path none = "/api/v5/account/balance" ∧
    OkxBalanceSecure.balance_request_path (some "") = "/api/v5/account/balance" ∧
    (∀ c : String, c ≠ "" →
      OkxBalanceSecure.balance_request_path (some c) =
        "/api/v5/account/balance" ++ "?ccy=" ++ c) := by
  refine ⟨rfl, rfl, fun c hc => ?_, rfl, rfl, fun c hc => ?_⟩ <;>
  · show (if c = "" then "/api/v5/account/balance"
          else "/api/v5/account/balance" ++ "?ccy=" ++ c) =
        "/api/v5/account/balance" ++ "?ccy=" ++ c
    rw [if_neg hc]

/-- Witness for C9 at the currency `BTC` of the repository tests. -/
theorem C9_witness :
    OkxAccountBalance.balance_request_path (some "BTC") =
      "/api/v5/account/balance" ++ "?ccy=" ++ "BTC" :=
  C9_request_path_ccy.2.2.1 "BTC" (by decide)

/-- Claim C10: the three signer copies compute extensionally equal functions:
for every secret, timestamp, method, path and body all three return the same
signature string. -/
theorem C10_three_signers_agree (secret timestamp method request_path body : String) :
    OkxAccountBalance.generate_signature secret timestamp method request_path body =
      OkxBalanceSecure.generate_signature secret timestamp method request_path body ∧
    OkxBalanceSecure.generate_signature secret timestamp method request_path body =
      TestSignature.generate_signature timestamp method request_path body secret :=
  ⟨rfl, rfl⟩
